import Mathlib

/-!
Verification development for the AI-powered CI/CD pipeline generator
(`generate_workflow.py`) and its QR-code backend collaborator
(`backend/main.py`).

The Python source is shallowly embedded: Python dicts become association
lists in insertion order (`assocSet` mirrors dict assignment), Python
strings become Lean `String`/`List Char`, machine integers become `Int`
(Python ints are unbounded, so no wrap-around modelling is needed), and
fallible code returns `Except`.  Filesystem state consulted by the
analyzer, the network outcome of the OpenAI call, and the contents of
config/version files are passed in as explicit values; generated files
with fixed template text are represented by their point-substitution
slots (the spec states that templates are fixed document shapes with
point substitutions), so constant template text is elided.
-/

/-! ## Python-style primitive helpers -/

/-- Python whitespace characters as recognised by `str.strip` and `int()`
(ASCII subset; exotic Unicode whitespace is not modelled). -/
def isWsPy (c : Char) : Bool :=
  c == ' ' || c == '\t' || c == '\n' || c == '\r' || c == '\x0b' || c == '\x0c'

/-- Python `str.strip()` on a character list: drop leading and trailing
whitespace. -/
def stripChars (l : List Char) : List Char :=
  ((l.dropWhile isWsPy).reverse.dropWhile isWsPy).reverse

/-- Python `str.strip()`. -/
def pyStrip (s : String) : String :=
  String.mk (stripChars s.data)

/-- Value of a decimal digit string read left to right (the arithmetic
behind Python `int()` on a digit string). -/
def digitsToNat (l : List Char) : Nat :=
  l.foldl (fun a c => a * 10 + (c.toNat - '0'.toNat)) 0

/-- Decimal rendering of a natural number, fuel-indexed so that it is
structurally recursive (and hence kernel-reducible).  The fuel is always
taken larger than the number. -/
def natToCharsAux : Nat → Nat → List Char
  | 0, _ => []
  | fuel + 1, n =>
    if n < 10 then [Char.ofNat (48 + n)]
    else natToCharsAux fuel (n / 10) ++ [Char.ofNat (48 + n % 10)]

/-- Decimal rendering of a natural number (Python `str` on a non-negative
int). -/
def natToChars (n : Nat) : List Char :=
  natToCharsAux (n + 1) n

/-- Python `str` on an int, as a character list. -/
def intToChars (i : Int) : List Char :=
  if i < 0 then '-' :: natToChars i.natAbs else natToChars i.toNat

/-- The sign-and-digits core of Python `int(str)`, applied after
whitespace stripping. -/
def pyIntParseCore : List Char → Option Int
  | [] => none
  | c :: ds =>
    if c = '-' then
      if !ds.isEmpty && ds.all Char.isDigit then some (-(digitsToNat ds : Int)) else none
    else if c = '+' then
      if !ds.isEmpty && ds.all Char.isDigit then some ((digitsToNat ds : Int)) else none
    else
      if (c :: ds).all Char.isDigit then some ((digitsToNat (c :: ds) : Int)) else none

/-- Python `int(str)`: strip whitespace, allow one optional sign, then
require a non-empty run of decimal digits.  (Underscore digit separators
accepted by CPython are not modelled.)  Returns `none` where Python
raises `ValueError`. -/
def pyIntParse (l : List Char) : Option Int :=
  pyIntParseCore (stripChars l)

/-- Python `str.split(sep)` for a single-character separator: splitting
never yields the empty list, and adjacent separators yield empty
components, exactly as in Python. -/
def splitOnChar (sep : Char) : List Char → List (List Char)
  | [] => [[]]
  | c :: rest =>
    if c = sep then [] :: splitOnChar sep rest
    else
      match splitOnChar sep rest with
      | [] => [[c]]
      | h :: t => (c :: h) :: t

/-! ## Association lists as Python dicts (insertion-ordered) -/

/-- Python dict lookup (`d.get(k)` without default). -/
def assocLookup {α : Type} (d : List (String × α)) (k : String) : Option α :=
  match d with
  | [] => none
  | (k2, v) :: rest => if k2 == k then some v else assocLookup rest k

/-- Python `d.get(k, default)`. -/
def assocGetD {α : Type} (d : List (String × α)) (k : String) (dflt : α) : α :=
  (assocLookup d k).getD dflt

/-- Python dict assignment `d[k] = v`: overwrite in place if the key is
present, otherwise append (insertion order). -/
def assocSet {α : Type} (d : List (String × α)) (k : String) (v : α) : List (String × α) :=
  match d with
  | [] => [(k, v)]
  | (k2, v2) :: rest =>
    if k2 == k then (k, v) :: rest else (k2, v2) :: assocSet rest k v

/-- Python `k in d`. -/
def assocHas {α : Type} (d : List (String × α)) (k : String) : Bool :=
  (assocLookup d k).isSome

/-! ## Python values (the fragment used by the generator) -/

/-- The Python values flowing through the analysis record and the
override config: `None`, bools, ints, strings, lists, and string-keyed
dicts. -/
inductive PyVal : Type
  | vNone : PyVal
  | vBool : Bool → PyVal
  | vInt : Int → PyVal
  | vStr : String → PyVal
  | vList : List PyVal → PyVal
  | vDict : List (String × PyVal) → PyVal

/-- A Python dict with string keys (analysis records, configs). -/
abbrev PyDict := List (String × PyVal)

/-- Python truthiness (`bool(v)`). -/
def truthy : PyVal → Bool
  | .vNone => false
  | .vBool b => b
  | .vInt i => i != 0
  | .vStr s => !s.isEmpty
  | .vList l => !l.isEmpty
  | .vDict d => !d.isEmpty

/-- Python `repr` for the atoms appearing inside rendered lists.  Nested
containers never occur in parsed override configs, so their rendering is
abbreviated. -/
def pyReprAtom : PyVal → String
  | .vStr s => String.singleton (Char.ofNat 39) ++ s ++ String.singleton (Char.ofNat 39)
  | .vInt i => String.mk (intToChars i)
  | .vBool b => if b then "True" else "False"
  | .vNone => "None"
  | .vList _ => "[...]"
  | .vDict _ => "dict"

/-- Python `str(v)` as used by f-string interpolation in the templates. -/
def pyStrOfVal : PyVal → String
  | .vStr s => s
  | .vList l => "[" ++ String.intercalate ", " (l.map pyReprAtom) ++ "]"
  | .vInt i => String.mk (intToChars i)
  | .vBool b => if b then "True" else "False"
  | .vNone => "None"
  | .vDict _ => "dict"

/-! ## Version bump (`PipelineGenerator._increment_version`) -/

/-- The body of `_increment_version` acting on the dot-split components:
`int(parts[2]) + 1` interpolated back after `parts[0]` and `parts[1]`;
an IndexError (fewer than three components) or ValueError (third
component not an int) is caught and yields the constant `0.1.1`.
Components beyond the third are dropped and the first two are kept
verbatim, exactly as in the source f-string. -/
def increment_version_parts : List (List Char) → String
  | p0 :: p1 :: p2 :: _ =>
    match pyIntParse p2 with
    | some z => String.mk (p0 ++ '.' :: (p1 ++ '.' :: intToChars (z + 1)))
    | none => "0.1.1"
  | _ => "0.1.1"

/-- `_increment_version`, acting on the (already stripped) text of the
VERSION file. -/
def increment_version (current : String) : String :=
  increment_version_parts (splitOnChar '.' current.data)

/-- One `_increment_version` run over the persisted VERSION file:
`none` models a missing file (current version `0.1.0`), `some s` models
a file with raw text `s`, which the source strips on read.  The return
value is the text persisted back. -/
def increment_version_file (file : Option String) : String :=
  increment_version (match file with
    | some s => pyStrip s
    | none => "0.1.0")

/-- The string `X.Y.Z` for naturals `X`, `Y`, `Z`. -/
def verStr (x y z : Nat) : String :=
  String.mk (natToChars x ++ '.' :: (natToChars y ++ '.' :: natToChars z))

/-- Modelled from the spec: a well-formed `major.minor.patch` version is
three dot-separated, non-empty, all-digit components. -/
def spec_wellformed_version (s : String) : Bool :=
  match splitOnChar '.' s.data with
  | [a, b, c] =>
    !a.isEmpty && a.all Char.isDigit && !b.isEmpty && b.all Char.isDigit &&
      !c.isEmpty && c.all Char.isDigit
  | _ => false

/-! ### Decimal-rendering lemmas -/

lemma natToCharsAux_mem {fuel n : Nat} (hf : n < fuel) {c : Char}
    (hc : c ∈ natToCharsAux fuel n) : ∃ m, m < 10 ∧ c = Char.ofNat (48 + m) := by
  induction fuel generalizing n with
  | zero => omega
  | succ fuel ih =>
    rw [natToCharsAux] at hc
    by_cases h10 : n < 10
    · rw [if_pos h10] at hc
      simp only [List.mem_singleton] at hc
      exact ⟨n, h10, hc⟩
    · rw [if_neg h10] at hc
      rcases List.mem_append.mp hc with h | h
      · exact ih (by omega) h
      · simp only [List.mem_singleton] at h
        exact ⟨n % 10, Nat.mod_lt _ (by omega), h⟩

lemma digit_char_props {m : Nat} (hm : m < 10) :
    (Char.ofNat (48 + m)).isDigit = true ∧ isWsPy (Char.ofNat (48 + m)) = false ∧
      Char.ofNat (48 + m) ≠ '.' ∧ Char.ofNat (48 + m) ≠ '-' ∧ Char.ofNat (48 + m) ≠ '+' := by
  interval_cases m <;> exact ⟨by decide, by decide, by decide, by decide, by decide⟩

lemma natToCharsAux_ne_nil {fuel n : Nat} (hf : n < fuel) : natToCharsAux fuel n ≠ [] := by
  cases fuel with
  | zero => omega
  | succ fuel =>
    rw [natToCharsAux]
    split <;> simp

lemma digitsToNat_append_singleton (l : List Char) (c : Char) :
    digitsToNat (l ++ [c]) = digitsToNat l * 10 + (c.toNat - '0'.toNat) := by
  simp [digitsToNat, List.foldl_append]

lemma toNat_digit_char {m : Nat} (hm : m < 10) : (Char.ofNat (48 + m)).toNat = 48 + m := by
  interval_cases m <;> decide

lemma digitsToNat_natToCharsAux {fuel n : Nat} (hf : n < fuel) :
    digitsToNat (natToCharsAux fuel n) = n := by
  induction fuel generalizing n with
  | zero => omega
  | succ fuel ih =>
    rw [natToCharsAux]
    by_cases h10 : n < 10
    · rw [if_pos h10]
      simp [digitsToNat, toNat_digit_char h10]
    · rw [if_neg h10]
      rw [digitsToNat_append_singleton, ih (by omega : n / 10 < fuel)]
      rw [toNat_digit_char (Nat.mod_lt _ (by omega))]
      have hdm := Nat.div_add_mod n 10
      have h0 : '0'.toNat = 48 := rfl
      rw [h0]
      omega

lemma digitsToNat_natToChars (n : Nat) : digitsToNat (natToChars n) = n :=
  digitsToNat_natToCharsAux (Nat.lt_succ_self n)

lemma natToChars_mem {n : Nat} {c : Char} (hc : c ∈ natToChars n) :
    ∃ m, m < 10 ∧ c = Char.ofNat (48 + m) :=
  natToCharsAux_mem (Nat.lt_succ_self n) hc

lemma natToChars_ne_nil (n : Nat) : natToChars n ≠ [] :=
  natToCharsAux_ne_nil (Nat.lt_succ_self n)

/-! ### Strip / split / parse lemmas -/

lemma dropWhile_eq_self_of_false {p : Char → Bool} {l : List Char}
    (h : ∀ c ∈ l, p c = false) : l.dropWhile p = l := by
  cases l with
  | nil => rfl
  | cons a t => simp [List.dropWhile, h a (by simp)]

lemma stripChars_eq_self {l : List Char} (h : ∀ c ∈ l, isWsPy c = false) :
    stripChars l = l := by
  unfold stripChars
  rw [dropWhile_eq_self_of_false h]
  rw [dropWhile_eq_self_of_false (fun c hc => h c (List.mem_reverse.mp hc))]
  exact List.reverse_reverse l

lemma splitOnChar_ne_nil (sep : Char) (l : List Char) : splitOnChar sep l ≠ [] := by
  induction l with
  | nil => simp [splitOnChar]
  | cons c rest ih =>
    rw [splitOnChar]
    split
    · simp
    · cases h : splitOnChar sep rest with
      | nil => exact absurd h ih
      | cons a b => simp

lemma splitOnChar_no_sep {sep : Char} {l : List Char} (h : ∀ c ∈ l, c ≠ sep) :
    splitOnChar sep l = [l] := by
  induction l with
  | nil => rfl
  | cons c rest ih =>
    rw [splitOnChar, if_neg (h c (by simp)), ih (fun d hd => h d (by simp [hd]))]

lemma splitOnChar_append_sep {sep : Char} {l r : List Char} (h : ∀ c ∈ l, c ≠ sep) :
    splitOnChar sep (l ++ sep :: r) = l :: splitOnChar sep r := by
  induction l with
  | nil => simp [splitOnChar]
  | cons c rest ih =>
    have hrest := ih (fun d hd => h d (by simp [hd]))
    rw [List.cons_append, splitOnChar, if_neg (h c (by simp)), hrest]

lemma pyIntParse_digit_chars {l : List Char} (hne : l ≠ [])
    (hd : ∀ c ∈ l, ∃ m, m < 10 ∧ c = Char.ofNat (48 + m)) :
    pyIntParse l = some ((digitsToNat l : Nat) : Int) := by
  have hdig : ∀ c ∈ l, c.isDigit = true := by
    intro c hc
    obtain ⟨m, hm, rfl⟩ := hd c hc
    exact (digit_char_props hm).1
  have hnw : ∀ c ∈ l, isWsPy c = false := by
    intro c hc
    obtain ⟨m, hm, rfl⟩ := hd c hc
    exact (digit_char_props hm).2.1
  rw [pyIntParse, stripChars_eq_self hnw]
  cases l with
  | nil => exact absurd rfl hne
  | cons c ds =>
    have hcd : c.isDigit = true := hdig c (by simp)
    have hcm : c ≠ '-' := by rintro rfl; simp [Char.isDigit] at hcd
    have hcp : c ≠ '+' := by rintro rfl; simp [Char.isDigit] at hcd
    rw [pyIntParseCore, if_neg hcm, if_neg hcp, if_pos]
    exact List.all_eq_true.mpr (fun x hx => hdig x hx)

lemma pyIntParse_natToChars (n : Nat) : pyIntParse (natToChars n) = some (n : Int) := by
  rw [pyIntParse_digit_chars (natToChars_ne_nil n) (fun c hc => natToChars_mem hc)]
  rw [digitsToNat_natToChars]

lemma verStr_no_ws (x y z : Nat) : ∀ c ∈ natToChars x ++ '.' :: (natToChars y ++ '.' :: natToChars z),
    isWsPy c = false := by
  intro c hc
  simp only [List.mem_append, List.mem_cons] at hc
  rcases hc with h | rfl | h | rfl | h
  · obtain ⟨m, hm, rfl⟩ := natToChars_mem h; exact (digit_char_props hm).2.1
  · decide
  · obtain ⟨m, hm, rfl⟩ := natToChars_mem h; exact (digit_char_props hm).2.1
  · decide
  · obtain ⟨m, hm, rfl⟩ := natToChars_mem h; exact (digit_char_props hm).2.1

lemma natToChars_no_dot (n : Nat) : ∀ c ∈ natToChars n, c ≠ '.' := by
  intro c hc
  obtain ⟨m, hm, rfl⟩ := natToChars_mem hc
  exact (digit_char_props hm).2.2.1

/-- Core computation of one version bump on a well-formed `X.Y.Z`. -/
lemma increment_version_verStr (x y z : Nat) :
    increment_version (verStr x y z) = verStr x y (z + 1) := by
  rw [increment_version]
  have hdata : (verStr x y z).data
      = natToChars x ++ '.' :: (natToChars y ++ '.' :: natToChars z) := rfl
  rw [hdata, splitOnChar_append_sep (natToChars_no_dot x),
    splitOnChar_append_sep (natToChars_no_dot y),
    splitOnChar_no_sep (natToChars_no_dot z)]
  rw [increment_version_parts, pyIntParse_natToChars]
  have h1 : ((z : Int) + 1) = ((z + 1 : Nat) : Int) := by push_cast; ring
  have h2 : intToChars ((z : Int) + 1) = natToChars (z + 1) := by
    rw [intToChars, if_neg (by omega : ¬((z : Int) + 1 < 0)), h1, Int.toNat_natCast]
  show String.mk (natToChars x ++ '.' :: (natToChars y ++ '.' :: intToChars ((z : Int) + 1)))
      = verStr x y (z + 1)
  rw [h2]
  rfl

lemma pyStrip_verStr (x y z : Nat) : pyStrip (verStr x y z) = verStr x y z := by
  have : stripChars (verStr x y z).data = (verStr x y z).data :=
    stripChars_eq_self (verStr_no_ws x y z)
  rw [pyStrip, this]

lemma increment_version_file_verStr (x y z : Nat) :
    increment_version_file (some (verStr x y z)) = verStr x y (z + 1) := by
  rw [increment_version_file, pyStrip_verStr, increment_version_verStr]

/-- C6: for every valid persisted version file `X.Y.Z`, one generation
run rewrites it to `X.Y.(Z+1)` with major and minor untouched, and two
consecutive runs yield `X.Y.(Z+2)`. -/
theorem claim_C6 (x y z : Nat) :
    increment_version_file (some (verStr x y z)) = verStr x y (z + 1) ∧
      increment_version_file (some (increment_version_file (some (verStr x y z))))
        = verStr x y (z + 2) := by
  refine ⟨increment_version_file_verStr x y z, ?_⟩
  rw [increment_version_file_verStr, increment_version_file_verStr]

/-- C2 counterexample: the persisted content `a.b.3` is not of
well-formed `major.minor.patch` shape (its major and minor components
are not digits), yet the version-bump step does not reset to the
fallback: it persists `a.b.4`, not the fallback-with-patch+1 value
`0.1.1` the claim demands. -/
theorem claim_C2_counterexample :
    spec_wellformed_version "a.b.3" = false ∧
      increment_version_file (some "a.b.3") = "a.b.4" ∧
      increment_version_file (some "a.b.3") ≠ "0.1.1" :=
  ⟨rfl, rfl, by decide⟩

/-- C2 (amended): the version-bump step resets to the fixed fallback
(persisting `0.1.1` = fallback triple with patch+1) exactly for those
contents whose dot-split has fewer than three components or whose third
component is not integer-parseable (first conjunct, whose hypothesis is
vacuously true for short splits); every content whose third component IS
parseable — malformed or not — is instead bumped in place: the first two
components are kept verbatim, components beyond the third are dropped,
and the third becomes its integer value plus one (second conjunct).
Together the two conjuncts are exhaustive and mutually exclusive, so
they characterize the step on every persisted content. -/
theorem claim_C2_amended (s : String) :
    ((∀ p0 p1 p2 rest, splitOnChar '.' (pyStrip s).data = p0 :: p1 :: p2 :: rest →
        pyIntParse p2 = none) →
      increment_version_file (some s) = "0.1.1") ∧
    (∀ p0 p1 p2 rest z, splitOnChar '.' (pyStrip s).data = p0 :: p1 :: p2 :: rest →
      pyIntParse p2 = some z →
      increment_version_file (some s)
        = String.mk (p0 ++ '.' :: (p1 ++ '.' :: intToChars (z + 1)))) := by
  constructor
  · intro h
    show increment_version (pyStrip s) = "0.1.1"
    rw [increment_version]
    cases hsp : splitOnChar '.' (pyStrip s).data with
    | nil => rfl
    | cons p0 t =>
      cases t with
      | nil => rfl
      | cons p1 t2 =>
        cases t2 with
        | nil => rfl
        | cons p2 rest =>
          have hp := h p0 p1 p2 rest hsp
          simp [increment_version_parts, hp]
  · intro p0 p1 p2 rest z hsp hz
    show increment_version (pyStrip s) = _
    rw [increment_version, hsp]
    simp [increment_version_parts, hz]

/-- Witness for C2 (amended): the reset conjunct at the dotless content
`abc`, and the bump-in-place conjunct at the malformed four-component
content `a.b.3.zzz` — the non-numeric major and minor are kept verbatim,
the extra component is dropped, and the third is incremented. -/
theorem claim_C2_amended_witness :
    increment_version_file (some "abc") = "0.1.1" ∧
      increment_version_file (some "a.b.3.zzz") = "a.b.4" := by
  constructor
  · apply (claim_C2_amended "abc").1
    intro p0 p1 p2 rest h
    rw [show splitOnChar '.' (pyStrip "abc").data = [['a', 'b', 'c']] from rfl] at h
    simp at h
  · exact ((claim_C2_amended "a.b.3.zzz").2 ['a'] ['b'] ['3'] [['z', 'z', 'z']] 3
      rfl rfl).trans (by decide)

/-! ## QR backend collaborator (`backend/main.py`, `format_data_for_qr`) -/

/-- The error raised by the endpoint: FastAPI `HTTPException(status, detail)`. -/
inductive HTTPErr : Type
  | httpException (status : Nat) (detail : String)

/-- Characters admitted by the local part of the email regex
`[a-zA-Z0-9._%+-]`. -/
def isEmailLocalChar (c : Char) : Bool :=
  c.isAlpha || c.isDigit || c == '.' || c == '_' || c == '%' || c == '+' || c == '-'

/-- Characters admitted by the domain part of the email regex
`[a-zA-Z0-9.-]`. -/
def isEmailDomainChar (c : Char) : Bool :=
  c.isAlpha || c.isDigit || c == '.' || c == '-'

/-- `re.match` against `[a-zA-Z0-9._%+-]+@[a-zA-Z0-9.-]+\.[a-zA-Z]\x7b2,\x7d$`
(anchored both ends): exactly one `@` separating a non-empty local part
over the local class from a domain that, after its last dot, ends in at
least two letters, with a non-empty domain-class run before that dot.
The `$`-matches-before-trailing-newline quirk of Python is not modelled. -/
def emailRegexMatch (s : String) : Bool :=
  match splitOnChar '@' s.data with
  | [lp, dom] =>
    !lp.isEmpty && lp.all isEmailLocalChar &&
      (let r := dom.reverse
       let tld := r.takeWhile (fun c => c != '.')
       let before := r.drop (tld.length + 1)
       decide (tld.length < r.length) && decide (2 ≤ tld.length) &&
         tld.all Char.isAlpha && !before.isEmpty && before.all isEmailDomainChar)
  | _ => false

/-- `re.match` against `^https?://[^\s/$.?#].[^\s]*$`: a scheme, one
character outside the excluded class, one arbitrary non-newline
character, then non-whitespace to the end. -/
def urlRegexMatch (s : String) : Bool :=
  let rest : Option (List Char) :=
    if s.startsWith "https://" then some (s.data.drop 8)
    else if s.startsWith "http://" then some (s.data.drop 7)
    else none
  match rest with
  | none => false
  | some cs =>
    match cs with
    | c1 :: c2 :: t =>
      !(isWsPy c1 || c1 == '/' || c1 == '$' || c1 == '.' || c1 == '?' || c1 == '#') &&
        c2 != '\n' && t.all (fun c => !isWsPy c)
    | _ => false

/-- `format_data_for_qr(data, data_type)` from `backend/main.py`:
per-type formatting with 400-class `HTTPException`s for malformed
email/phone/url/wifi input, and the identity on every other type. -/
def format_data_for_qr (data : String) (data_type : String) : Except HTTPErr String :=
  if data_type = "email" then
    if !emailRegexMatch data then .error (.httpException 400 "Invalid email format")
    else .ok ("mailto:" ++ data)
  else if data_type = "phone" then
    let phone := data.data.filter (fun c => c.isDigit || c == '+')
    if phone = [] ∨ phone.length < 7 then .error (.httpException 400 "Invalid phone number")
    else .ok ("tel:" ++ String.mk phone)
  else if data_type = "url" then
    let d := if data.startsWith "http://" || data.startsWith "https://" then data
             else "https://" ++ data
    if !urlRegexMatch d then .error (.httpException 400 "Invalid URL format")
    else .ok d
  else if data_type = "wifi" then
    let parts := splitOnChar ',' data.data
    if parts.length < 2 then .error (.httpException 400 "WiFi format: SSID,Password,Security")
    else
      let ssid := String.mk (stripChars (parts.getD 0 []))
      let password := String.mk (stripChars (parts.getD 1 []))
      let security0 := if 2 < parts.length then
          String.mk ((stripChars (parts.getD 2 [])).map Char.toUpper)
        else "WPA"
      let security := if security0 ≠ "WPA" ∧ security0 ≠ "WEP" ∧ security0 ≠ "NOPASS"
        then "WPA" else security0
      .ok ("WIFI:T:" ++ security ++ ";S:" ++ ssid ++ ";P:" ++ password ++ ";;")
  else
    .ok data

/-- C8 counterexample: the phone input `+++++++` keeps 7 characters
after the sub (which strips only characters that are neither digits nor
plus signs), so it is accepted and formatted, although fewer than 7
digits (in fact none) remain after stripping non-digits — refuting
"accepted iff at least 7 digits remain after stripping non-digits". -/
theorem claim_C8_counterexample :
    format_data_for_qr "+++++++" "phone" = .ok "tel:+++++++" ∧
      (("+++++++" : String).data.filter Char.isDigit).length < 7 :=
  ⟨rfl, by decide⟩

/-- C8 (amended): a phone input is accepted, and formatted as
`tel:` followed by the kept characters, if and only if at least 7
characters remain after stripping all characters other than decimal
digits and `+`; otherwise it yields the 400 `Invalid phone number`
error. -/
theorem claim_C8_amended (data : String) :
    format_data_for_qr data "phone" =
      (if 7 ≤ (data.data.filter (fun c => c.isDigit || c == '+')).length then
        Except.ok ("tel:" ++ String.mk (data.data.filter (fun c => c.isDigit || c == '+')))
      else Except.error (HTTPErr.httpException 400 "Invalid phone number")) := by
  have hphone : format_data_for_qr data "phone" =
      (if (data.data.filter (fun c => c.isDigit || c == '+')) = [] ∨
          (data.data.filter (fun c => c.isDigit || c == '+')).length < 7 then
        Except.error (HTTPErr.httpException 400 "Invalid phone number")
      else Except.ok ("tel:" ++ String.mk (data.data.filter (fun c => c.isDigit || c == '+')))) :=
    rfl
  rw [hphone]
  by_cases h : (data.data.filter (fun c => c.isDigit || c == '+')).length < 7
  · rw [if_pos (Or.inr h), if_neg (by omega)]
  · have h2 : 7 ≤ (data.data.filter (fun c => c.isDigit || c == '+')).length := by omega
    have h3 : ¬((data.data.filter (fun c => c.isDigit || c == '+')) = [] ∨
        (data.data.filter (fun c => c.isDigit || c == '+')).length < 7) := by
      rintro (he | hl)
      · rw [he] at h2; simp at h2
      · exact h hl
    rw [if_neg h3, if_pos h2]

/-- C10: for every data type outside the four special kinds (email,
phone, url, wifi) — including `text` and unrecognized strings — the
formatter returns the input unchanged and never raises. -/
theorem claim_C10 (data data_type : String) (h1 : data_type ≠ "email")
    (h2 : data_type ≠ "phone") (h3 : data_type ≠ "url") (h4 : data_type ≠ "wifi") :
    format_data_for_qr data data_type = .ok data := by
  rw [format_data_for_qr, if_neg h1, if_neg h2, if_neg h3, if_neg h4]

/-- Witness for C10 at the concrete type `text`. -/
theorem claim_C10_witness : format_data_for_qr "hello" "text" = .ok "hello" :=
  claim_C10 "hello" "text" (by decide) (by decide) (by decide) (by decide)

/-! ## Config loader (`PipelineGenerator._load_config` / `_default_config`) -/

/-- The hard-coded default mapping returned by `_default_config`. -/
def default_config : PyDict :=
  [("pipeline_name", .vStr "auto-generated-pipeline"),
   ("environment", .vStr "production"),
   ("target", .vStr "aws_ec2"),
   ("instance_type", .vStr "t2.micro"),
   ("deploy_using", .vStr "docker-compose"),
   ("labels", .vList [.vStr "ai-generated", .vStr "demo"]),
   ("email_notification", .vStr "true"),
   ("email_recipient", .vStr "demo@example.com")]

/-- One line of `_load_config`: strip; skip blanks and `#` comments and
lines without a colon; otherwise split on the first colon, strip key and
value, and turn a `[`-`]`-wrapped value into a list of comma-separated
stripped strings. -/
def parse_config_line (cfg : PyDict) (line : String) : PyDict :=
  let l := stripChars line.data
  if l.isEmpty then cfg
  else if l.head? == some '#' then cfg
  else if l.contains ':' then
    let k := l.takeWhile (fun c => c != ':')
    let v := (l.dropWhile (fun c => c != ':')).drop 1
    let key := String.mk (stripChars k)
    let value := stripChars v
    let pv : PyVal :=
      if value.head? == some '[' && value.getLast? == some ']' then
        .vList (((splitOnChar ',' (value.drop 1).dropLast)).map
          (fun e => .vStr (String.mk (stripChars e))))
      else .vStr (String.mk value)
    assocSet cfg key pv
  else cfg

/-- `_load_config` over an existing, readable file given as its logical
lines (the parse loop cannot raise on text input, so the exception
branch that would also return the default mapping is unreachable). -/
def parse_config_lines (lines : List String) : PyDict :=
  lines.foldl parse_config_line []

/-- `_load_config`: a missing file (`none`) yields the hard-coded
default mapping; an existing file is parsed line by line and returned
without merging in any defaults. -/
def load_config (file : Option (List String)) : PyDict :=
  match file with
  | none => default_config
  | some lines => parse_config_lines lines

/-! ## Terraform generation (`_ensure_terraform_infrastructure` and helpers) -/

/-- `analysis[facet]` viewed as a dict (the analyzer always stores a
dict under each facet key). -/
def pyGetFacet (analysis : PyDict) (k : String) : PyDict :=
  match assocLookup analysis k with
  | some (.vDict d) => d
  | _ => []

/-- Python `int(v)` on the values that reach the port conversion:
ints pass through, strings are parsed, bools coerce, anything else is a
TypeError (`none`). -/
def pyIntCoerce : PyVal → Option Int
  | .vInt i => some i
  | .vBool b => some (if b then 1 else 0)
  | .vStr s => pyIntParse s.data
  | _ => none

/-- The port resolution of `_create_terraform_main` (lines 903-913):
`config.get('backend_port', analysis['backend'].get('port', 8000))`,
likewise for the frontend, then one shared try/except around both `int`
conversions — if either conversion fails, BOTH ports fall back to
8000/3000. -/
def create_terraform_main_ports (cfg analysis : PyDict) : Int × Int :=
  let bv := assocGetD cfg "backend_port" (assocGetD (pyGetFacet analysis "backend") "port" (.vInt 8000))
  let fv := assocGetD cfg "frontend_port" (assocGetD (pyGetFacet analysis "frontend") "port" (.vInt 3000))
  match pyIntCoerce bv, pyIntCoerce fv with
  | some b, some f => (b, f)
  | _, _ => (8000, 3000)

/-- The point-substitution slots of the generated `variables.tf`
(constant template text elided; each field is the exact string
interpolated into the corresponding slot by `_create_terraform_variables`). -/
structure VariablesTf : Type where
  environment : String
  ami_default : String
  ami_comment : String
  instance_type : String
  project_name : String
  project_title : String
  frontend_port_token : String
  backend_port_token : String
  deploy_method : String
  target_platform : String

/-- Python `str.title()` (ASCII approximation: a letter is upper-cased
after a non-letter and lower-cased after a letter). -/
def pyTitleAux : Bool → List Char → List Char
  | _, [] => []
  | prev, c :: rest =>
    if c.isAlpha then (if prev then c.toLower else c.toUpper) :: pyTitleAux true rest
    else c :: pyTitleAux false rest

/-- Python `str.title()`. -/
def pyTitle (s : String) : String :=
  String.mk (pyTitleAux false s.data)

/-- Case-fold a string (Python `str.lower()`, ASCII approximation). -/
def lowerStr (s : String) : String :=
  String.mk (s.data.map Char.toLower)

/-- Substring containment (Python `in` on strings). -/
def containsSub (needle hay : List Char) : Bool :=
  if needle.isPrefixOf hay then true
  else
    match hay with
    | [] => false
    | _ :: t => containsSub needle t

/-- `_create_terraform_variables`: computes every interpolated slot.
Note the local instance-type fallback `t3.micro`, distinct from the
`t2.micro` of `_default_config`, and the ports taken from the config
with fixed int defaults — no analysis fallback and no numeric
validation. -/
def create_terraform_variables (cfg : PyDict) : VariablesTf :=
  let environment := pyStrOfVal (assocGetD cfg "environment" (.vStr "dev"))
  let instance_type := pyStrOfVal (assocGetD cfg "instance_type" (.vStr "t3.micro"))
  let project_name :=
    (pyStrOfVal (assocGetD cfg "pipeline_name" (.vStr "qr-generator"))).replace "-auto-pipeline" ""
  let ami_config := pyStrOfVal (assocGetD cfg "ami" (.vStr "latest-ubuntu"))
  let isUb := containsSub "ubuntu".data (lowerStr ami_config).data
  { environment := environment
    ami_default := if isUb then "ami-0c7217cdde317cfec" else "ami-0c02fb55956c7d316"
    ami_comment := if isUb then "Ubuntu 22.04 LTS"
      else "Amazon Linux 2 AMI (HVM) - Kernel 5.10, SSD Volume Type"
    instance_type := instance_type
    project_name := project_name
    project_title := pyTitle project_name
    frontend_port_token := pyStrOfVal (assocGetD cfg "frontend_port" (.vInt 3000))
    backend_port_token := pyStrOfVal (assocGetD cfg "backend_port" (.vInt 8000))
    deploy_method := pyStrOfVal (assocGetD cfg "deploy_using" (.vStr "docker-compose"))
    target_platform := pyStrOfVal (assocGetD cfg "target" (.vStr "aws_ec2")) }

/-- The point-substitution slots of the generated `terraform.tfvars`
(and its `.example` twin, which differs only in constant text). -/
structure TfvarsTf : Type where
  environment : String
  instance_type : String
  ami_id : String
  project_name : String
  project_tag : String
  labels_joined : String
  frontend_port_token : String
  backend_port_token : String
  deploy_method : String
  target_platform : String

/-- Python `sep.join(v)` for the values reaching the labels slot: a list
joins its (string) elements, a plain string joins its characters. -/
def pyJoin (sep : String) : PyVal → String
  | .vList l => String.intercalate sep (l.map pyStrOfVal)
  | .vStr s => String.intercalate sep (s.data.map (fun c => String.mk [c]))
  | _ => ""

/-- `_create_terraform_tfvars`: computes every interpolated slot.  Ports
come from the config with fixed STRING defaults and are written
verbatim; the AMI mapping has a three-way branch unlike the two-way one
of `variables.tf`. -/
def create_terraform_tfvars (cfg : PyDict) : TfvarsTf :=
  let environment := pyStrOfVal (assocGetD cfg "environment" (.vStr "dev"))
  let instance_type := pyStrOfVal (assocGetD cfg "instance_type" (.vStr "t3.micro"))
  let project_name :=
    (pyStrOfVal (assocGetD cfg "pipeline_name" (.vStr "qr-generator"))).replace "-auto-pipeline" ""
  let ami_config := pyStrOfVal (assocGetD cfg "ami" (.vStr "latest-ubuntu"))
  let lc := (lowerStr ami_config).data
  { environment := environment
    instance_type := instance_type
    ami_id :=
      if containsSub "ubuntu".data lc then "ami-0c7217cdde317cfec"
      else if containsSub "amazon".data lc || containsSub "linux".data lc then
        "ami-0c02fb55956c7d316"
      else "ami-0c7217cdde317cfec"
    project_name := project_name
    project_tag := pyTitle (project_name.replace "-" " ")
    labels_joined := pyJoin "," (assocGetD cfg "labels" (.vList [.vStr "ai-generated"]))
    frontend_port_token := pyStrOfVal (assocGetD cfg "frontend_port" (.vStr "3000"))
    backend_port_token := pyStrOfVal (assocGetD cfg "backend_port" (.vStr "8000"))
    deploy_method := pyStrOfVal (assocGetD cfg "deploy_using" (.vStr "docker-compose"))
    target_platform := pyStrOfVal (assocGetD cfg "target" (.vStr "aws_ec2")) }

/-- A file in the `terraform/` directory: pre-existing files carry raw
text; files written by the generator carry their substitution slots
(`outputs.tf` and `user_data.sh` have none — their text is constant). -/
inductive TFile : Type
  | raw (content : String)
  | mainTf (backendPort frontendPort : Int)
  | userDataSh
  | variablesTf (c : VariablesTf)
  | outputsTf
  | tfvars (c : TfvarsTf)
  | tfvarsExample (c : TfvarsTf)

/-- The `terraform/` directory as a name → file map. -/
abbrev TerraDir := List (String × TFile)

/-- `_ensure_terraform_infrastructure`: if `main.tf`, `variables.tf` and
`outputs.tf` all already exist, return without writing anything;
otherwise write the full bundle (`main.tf` plus `user_data.sh`,
`variables.tf`, `outputs.tf`, `terraform.tfvars` plus its example). -/
def ensure_terraform_infrastructure (cfg analysis : PyDict) (dir : TerraDir) : TerraDir :=
  if assocHas dir "main.tf" && assocHas dir "variables.tf" && assocHas dir "outputs.tf" then
    dir
  else
    let ports := create_terraform_main_ports cfg analysis
    let d1 := assocSet dir "main.tf" (.mainTf ports.1 ports.2)
    let d2 := assocSet d1 "user_data.sh" .userDataSh
    let d3 := assocSet d2 "variables.tf" (.variablesTf (create_terraform_variables cfg))
    let d4 := assocSet d3 "outputs.tf" .outputsTf
    let d5 := assocSet d4 "terraform.tfvars" (.tfvars (create_terraform_tfvars cfg))
    assocSet d5 "terraform.tfvars.example" (.tfvarsExample (create_terraform_tfvars cfg))

/-- Modelled from the spec claim C4: the claimed per-file port
resolution — a config-supplied override if it is numeric, a non-numeric
override silently discarded back to the default, otherwise the
analysis-inferred port, otherwise the fixed default. -/
def spec_resolved_port (cfg analysis : PyDict) (key facet : String) (dflt : Int) : Int :=
  match assocLookup cfg key with
  | some v =>
    match pyIntCoerce v with
    | some n => n
    | none => dflt
  | none =>
    match assocLookup (pyGetFacet analysis facet) "port" with
    | some v =>
      match pyIntCoerce v with
      | some n => n
      | none => dflt
    | none => dflt

/-- Unfolding of the main.tf port resolution. -/
lemma create_terraform_main_ports_eq (cfg analysis : PyDict) :
    create_terraform_main_ports cfg analysis =
      match
        pyIntCoerce (assocGetD cfg "backend_port"
          (assocGetD (pyGetFacet analysis "backend") "port" (.vInt 8000))),
        pyIntCoerce (assocGetD cfg "frontend_port"
          (assocGetD (pyGetFacet analysis "frontend") "port" (.vInt 3000))) with
      | some b, some f => (b, f)
      | _, _ => (8000, 3000) := rfl

/-- C1 counterexample: an existing config file that parses to the empty
mapping (so the `instance_type` key is omitted) makes
`_create_terraform_variables` write its own fallback `t3.micro`, while
the built-in default mapping's fallback tier is `t2.micro` — the two
differ, refuting the claim. -/
theorem claim_C1_counterexample :
    assocLookup (parse_config_lines []) "instance_type" = none ∧
      (create_terraform_variables (load_config (some []))).instance_type = "t3.micro" ∧
      assocLookup default_config "instance_type" = some (.vStr "t2.micro") ∧
      ("t3.micro" : String) ≠ "t2.micro" :=
  ⟨rfl, rfl, rfl, by decide⟩

/-- C1 (amended): for every override file that exists and parses but
omits the `instance_type` key, the instance-type default written into
the generated variables file is the generation step's own fallback
`t3.micro`, not the default mapping's `t2.micro`; the default mapping's
tier is written only when the whole file is missing (because then the
default mapping supplies the key). -/
theorem claim_C1_amended :
    (∀ lines : List String,
      assocLookup (parse_config_lines lines) "instance_type" = none →
      (create_terraform_variables (load_config (some lines))).instance_type = "t3.micro") ∧
    (create_terraform_variables (load_config none)).instance_type = "t2.micro" := by
  refine ⟨?_, rfl⟩
  intro lines h
  show pyStrOfVal (assocGetD (parse_config_lines lines) "instance_type" (.vStr "t3.micro"))
      = "t3.micro"
  rw [assocGetD, h]
  rfl

/-- Witness for C1 (amended) at a one-line config omitting
`instance_type`. -/
theorem claim_C1_amended_witness :
    (create_terraform_variables (load_config (some ["environment: dev"]))).instance_type
      = "t3.micro" :=
  claim_C1_amended.1 ["environment: dev"] rfl

/-- C7: when `main.tf`, `variables.tf` and `outputs.tf` all already
exist, the infrastructure-generation step writes nothing — the directory
state is returned untouched. -/
theorem claim_C7 (cfg analysis : PyDict) (dir : TerraDir)
    (h1 : assocHas dir "main.tf" = true) (h2 : assocHas dir "variables.tf" = true)
    (h3 : assocHas dir "outputs.tf" = true) :
    ensure_terraform_infrastructure cfg analysis dir = dir := by
  rw [ensure_terraform_infrastructure, h1, h2, h3]
  rfl

/-- Witness for C7 at a concrete terraform directory containing the
three designated files plus an unrelated one. -/
theorem claim_C7_witness :
    ensure_terraform_infrastructure [] []
        [("main.tf", .raw "m"), ("variables.tf", .raw "v"), ("outputs.tf", .raw "o"),
          ("terraform.tfvars", .raw "t")]
      = [("main.tf", .raw "m"), ("variables.tf", .raw "v"), ("outputs.tf", .raw "o"),
          ("terraform.tfvars", .raw "t")] :=
  claim_C7 [] [] _ rfl rfl rfl

/-- C4 counterexample: with an empty override config and an analysis
record whose backend facet infers port 9090, the claimed per-file
resolution rule yields 9090, but the port default written into the
generated variables file is the fixed `8000` — the variables file never
consults the analysis-inferred port, refuting "this resolution rule
applies to each generated infra file". -/
theorem claim_C4_counterexample :
    spec_resolved_port []
        [("backend", PyVal.vDict [("exists", PyVal.vBool true), ("port", PyVal.vInt 9090)])]
        "backend_port" "backend" 8000 = 9090 ∧
      (create_terraform_variables []).backend_port_token = "8000" ∧
      ("8000" : String) ≠ "9090" :=
  ⟨rfl, rfl, by decide⟩

/-- C4 (amended): only `main.tf` resolves ports as config override →
analysis-inferred → fixed default, and there a non-numeric override
discards BOTH ports to the defaults 8000/3000; the variables file and
the tfvars file instead write the config override verbatim (even
non-numeric, with no analysis fallback) and otherwise the fixed
default. -/
theorem claim_C4_amended :
    (∀ cfg analysis b f nb nf,
      assocLookup cfg "backend_port" = some (.vStr b) → pyIntParse b.data = some nb →
      assocLookup cfg "frontend_port" = some (.vStr f) → pyIntParse f.data = some nf →
      create_terraform_main_ports cfg analysis = (nb, nf)) ∧
    (∀ cfg analysis b,
      assocLookup cfg "backend_port" = some (.vStr b) → pyIntParse b.data = none →
      create_terraform_main_ports cfg analysis = (8000, 3000)) ∧
    (∀ cfg analysis nb nf,
      assocLookup cfg "backend_port" = none → assocLookup cfg "frontend_port" = none →
      assocLookup (pyGetFacet analysis "backend") "port" = some (.vInt nb) →
      assocLookup (pyGetFacet analysis "frontend") "port" = some (.vInt nf) →
      create_terraform_main_ports cfg analysis = (nb, nf)) ∧
    (∀ cfg analysis,
      assocLookup cfg "backend_port" = none → assocLookup cfg "frontend_port" = none →
      assocLookup (pyGetFacet analysis "backend") "port" = none →
      assocLookup (pyGetFacet analysis "frontend") "port" = none →
      create_terraform_main_ports cfg analysis = (8000, 3000)) ∧
    (∀ cfg s, assocLookup cfg "backend_port" = some (.vStr s) →
      (create_terraform_variables cfg).backend_port_token = s) ∧
    (∀ cfg, assocLookup cfg "backend_port" = none →
      (create_terraform_variables cfg).backend_port_token = "8000") ∧
    (∀ cfg s, assocLookup cfg "backend_port" = some (.vStr s) →
      (create_terraform_tfvars cfg).backend_port_token = s) ∧
    (∀ cfg, assocLookup cfg "backend_port" = none →
      (create_terraform_tfvars cfg).backend_port_token = "8000") := by
  refine ⟨?_, ?_, ?_, ?_, ?_, ?_, ?_, ?_⟩
  · intro cfg analysis b f nb nf hb hpb hf hpf
    simp only [create_terraform_main_ports_eq, assocGetD, hb, hf, Option.getD_some,
      pyIntCoerce, hpb, hpf]
  · intro cfg analysis b hb hpb
    simp only [create_terraform_main_ports_eq, assocGetD, hb, Option.getD_some,
      pyIntCoerce, hpb]
  · intro cfg analysis nb nf hb hf hab haf
    simp only [create_terraform_main_ports_eq, assocGetD, hb, hf, hab, haf,
      Option.getD_none, Option.getD_some, pyIntCoerce]
  · intro cfg analysis hb hf hab haf
    simp only [create_terraform_main_ports_eq, assocGetD, hb, hf, hab, haf,
      Option.getD_none, Option.getD_some, pyIntCoerce]
  · intro cfg s hb
    show pyStrOfVal (assocGetD cfg "backend_port" (.vInt 8000)) = s
    rw [assocGetD, hb, Option.getD_some]
    rfl
  · intro cfg hb
    show pyStrOfVal (assocGetD cfg "backend_port" (.vInt 8000)) = "8000"
    rw [assocGetD, hb, Option.getD_none]
    rfl
  · intro cfg s hb
    show pyStrOfVal (assocGetD cfg "backend_port" (.vStr "8000")) = s
    rw [assocGetD, hb, Option.getD_some]
    rfl
  · intro cfg hb
    show pyStrOfVal (assocGetD cfg "backend_port" (.vStr "8000")) = "8000"
    rw [assocGetD, hb, Option.getD_none]
    rfl

/-- Witness for C4 (amended): a non-numeric backend override in main.tf
discards both ports to the defaults. -/
theorem claim_C4_amended_witness :
    create_terraform_main_ports [("backend_port", PyVal.vStr "abc")] [] = (8000, 3000) :=
  claim_C4_amended.2.1 [("backend_port", PyVal.vStr "abc")] [] "abc" rfl rfl

/-! ## Advisory enrichment (`_ai_enhance_analysis` / `_call_openai_api`) -/

/-- The observable outcome of the one HTTP POST to the advisory service:
a 200-class response whose message-content string either JSON-decodes
(`decoded = some v`) or not (`decoded = none`, `raw` holding the text),
a non-200 status, or an exception raised during the request (timeout,
transport failure, bad response shape). -/
inductive ApiOutcome : Type
  | success (decoded : Option PyVal) (raw : String)
  | httpError (status : Nat) (body : String)
  | exn (msg : String)

/-- The exceptions raised by the enrichment component (the source uses
plain `Exception` with distinct messages; the constructors record which
raise site fired). -/
inductive EnhanceError : Type
  | missingToken
  | apiError (msg : String)
  | emptyRecommendations

/-- `_call_openai_api`: on a 200 response, JSON-decode the content or
wrap the raw text as `{"recommendations": raw}`; on a non-200 status or
an exception, raise when `fail_on_error` (the non-200 raise is itself
caught by the function's own except-block and re-wrapped, hence the
nested message), otherwise log and return `None`. -/
def call_openai_api (outcome : ApiOutcome) (fail_on_error : Bool) :
    Except EnhanceError (Option PyVal) :=
  match outcome with
  | .success (some v) _ => .ok (some v)
  | .success none raw => .ok (some (.vDict [("recommendations", .vStr raw)]))
  | .httpError st body =>
    if fail_on_error then
      .error (.apiError ("Failed to access OpenAI API: "
        ++ ("OpenAI API Error: " ++ String.mk (natToChars st) ++ " - " ++ body)))
    else .ok none
  | .exn m =>
    if fail_on_error then .error (.apiError ("Failed to access OpenAI API: " ++ m))
    else .ok none

/-- `_ai_enhance_analysis(analysis, fail_on_ai_error)`: without a
credential, raise iff enrichment was explicitly requested, else
pass the record through; with a credential, call the service, attach a
truthy recommendations value under `ai_recommendations`, treat a falsy
one as a failure that is fatal only in explicit mode, and catch every
exception, re-raising iff in explicit mode. -/
def ai_enhance_analysis (token : Option String) (outcome : ApiOutcome)
    (analysis : PyDict) (fail_on_ai_error : Bool) : Except EnhanceError PyDict :=
  match token with
  | none => if fail_on_ai_error then .error .missingToken else .ok analysis
  | some _ =>
    match call_openai_api outcome fail_on_ai_error with
    | .error e => if fail_on_ai_error then .error e else .ok analysis
    | .ok recs =>
      match recs with
      | some v =>
        if truthy v then .ok (assocSet analysis "ai_recommendations" v)
        else if fail_on_ai_error then .error .emptyRecommendations
        else .ok analysis
      | none =>
        if fail_on_ai_error then .error .emptyRecommendations else .ok analysis

/-- Whether an `Except` is a success. -/
def exceptIsOk {ε α : Type} : Except ε α → Bool
  | .ok _ => true
  | .error _ => false

/-- Setting a fresh key appends it at the end of the dict. -/
lemma assocSet_append {α : Type} {d : List (String × α)} {k : String}
    (h : assocLookup d k = none) (v : α) : assocSet d k v = d ++ [(k, v)] := by
  induction d with
  | nil => rfl
  | cons p rest ih =>
    obtain ⟨k2, v2⟩ := p
    rw [assocLookup] at h
    rw [assocSet]
    by_cases hk : (k2 == k) = true
    · rw [if_pos hk] at h
      cases h
    · rw [if_neg hk] at h
      rw [if_neg hk, ih h]
      rfl

/-- C3: the dual-mode error policy of enrichment.  (1) no credential
and no explicit request: identity passthrough; (2) no credential with
explicit request: configuration error; (3)-(4) transport failure or
exception under explicit request: fatal, with the wrapped message;
(5) a 200 response under explicit request fails only when the decoded
recommendations are falsy, and otherwise attaches them; (6) a non-JSON
200 response under explicit request attaches the freeform wrapper;
(7) without explicit request no outcome whatsoever makes the run
fail. -/
theorem claim_C3 :
    (∀ o a, ai_enhance_analysis none o a false = .ok a) ∧
    (∀ o a, ai_enhance_analysis none o a true = .error .missingToken) ∧
    (∀ t a st b, ai_enhance_analysis (some t) (.httpError st b) a true
      = .error (.apiError ("Failed to access OpenAI API: "
          ++ ("OpenAI API Error: " ++ String.mk (natToChars st) ++ " - " ++ b)))) ∧
    (∀ t a m, ai_enhance_analysis (some t) (.exn m) a true
      = .error (.apiError ("Failed to access OpenAI API: " ++ m))) ∧
    (∀ t a v r, ai_enhance_analysis (some t) (.success (some v) r) a true
      = if truthy v then .ok (assocSet a "ai_recommendations" v)
        else .error .emptyRecommendations) ∧
    (∀ t a r, ai_enhance_analysis (some t) (.success none r) a true
      = .ok (assocSet a "ai_recommendations" (.vDict [("recommendations", .vStr r)]))) ∧
    (∀ t o a, exceptIsOk (ai_enhance_analysis (some t) o a false) = true) := by
  refine ⟨fun o a => rfl, fun o a => rfl, fun t a st b => rfl, fun t a m => rfl,
    ?_, fun t a r => rfl, ?_⟩
  · intro t a v r
    show (if truthy v then (Except.ok (assocSet a "ai_recommendations" v) : Except EnhanceError PyDict)
        else if true = true then .error .emptyRecommendations else .ok a)
      = if truthy v then .ok (assocSet a "ai_recommendations" v) else .error .emptyRecommendations
    by_cases h : truthy v = true
    · rw [if_pos h, if_pos h]
    · rw [if_neg h, if_neg h, if_pos rfl]
  · intro t o a
    cases o with
    | success decoded raw =>
      cases decoded with
      | some v =>
        show exceptIsOk (if truthy v then .ok (assocSet a "ai_recommendations" v)
          else if false = true then .error .emptyRecommendations else .ok a) = true
        by_cases h : truthy v = true
        · rw [if_pos h]; rfl
        · rw [if_neg h, if_neg (by decide : ¬(false = true))]; rfl
      | none => rfl
    | httpError st b => rfl
    | exn m => rfl

/-- The frame property of enrichment: the output record is the input
either unchanged or with exactly one `ai_recommendations` entry appended
at the end, so every pre-existing key keeps its value verbatim. -/
def enhancePreservesRecord (a out : PyDict) : Prop :=
  out = a ∨ ∃ v, out = a ++ [("ai_recommendations", v)]

/-- C9: whenever enrichment returns a record at all, that record is the
input record (which, being analyzer-produced, has no
`ai_recommendations` key) either unchanged or with exactly one
`ai_recommendations` entry appended; no analyzer-produced facet field is
altered. -/
theorem claim_C9 (token : Option String) (outcome : ApiOutcome) (a : PyDict)
    (fail : Bool) (out : PyDict)
    (hfresh : assocLookup a "ai_recommendations" = none)
    (hok : ai_enhance_analysis token outcome a fail = .ok out) :
    enhancePreservesRecord a out := by
  cases token with
  | none =>
    cases fail with
    | false => exact Or.inl (Except.ok.injEq .. ▸ hok).symm
    | true => cases hok
  | some t =>
    cases outcome with
    | success decoded raw =>
      cases decoded with
      | some v =>
        by_cases h : truthy v = true
        · refine Or.inr ⟨v, ?_⟩
          have : ai_enhance_analysis (some t) (.success (some v) raw) a fail
              = .ok (assocSet a "ai_recommendations" v) := by
            show (if truthy v then (Except.ok (assocSet a "ai_recommendations" v) : Except EnhanceError PyDict)
              else if fail = true then .error .emptyRecommendations else .ok a) = _
            rw [if_pos h]
          rw [this] at hok
          cases hok
          exact assocSet_append hfresh v
        · have : ai_enhance_analysis (some t) (.success (some v) raw) a fail
              = (if fail = true then .error .emptyRecommendations else .ok a) := by
            show (if truthy v then (Except.ok (assocSet a "ai_recommendations" v) : Except EnhanceError PyDict)
              else if fail = true then .error .emptyRecommendations else .ok a) = _
            rw [if_neg h]
          rw [this] at hok
          cases fail with
          | true => cases hok
          | false => exact Or.inl (Except.ok.injEq .. ▸ hok).symm
      | none =>
        refine Or.inr ⟨.vDict [("recommendations", .vStr raw)], ?_⟩
        have : ai_enhance_analysis (some t) (.success none raw) a fail
            = .ok (assocSet a "ai_recommendations" (.vDict [("recommendations", .vStr raw)])) := rfl
        rw [this] at hok
        cases hok
        exact assocSet_append hfresh _
    | httpError st b =>
      cases fail with
      | true => cases hok
      | false => exact Or.inl (Except.ok.injEq .. ▸ hok).symm
    | exn m =>
      cases fail with
      | true => cases hok
      | false => exact Or.inl (Except.ok.injEq .. ▸ hok).symm

/-- Witness for C9 at a concrete successful structured enrichment of a
one-facet record under explicit request. -/
theorem claim_C9_witness :
    enhancePreservesRecord [("frontend", PyVal.vDict [("exists", PyVal.vBool false)])]
      [("frontend", PyVal.vDict [("exists", PyVal.vBool false)]),
        ("ai_recommendations", PyVal.vDict [("testing", PyVal.vStr "add pytest")])] :=
  claim_C9 (some "tok")
    (.success (some (.vDict [("testing", PyVal.vStr "add pytest")])) "raw")
    [("frontend", PyVal.vDict [("exists", PyVal.vBool false)])] true
    [("frontend", PyVal.vDict [("exists", PyVal.vBool false)]),
      ("ai_recommendations", PyVal.vDict [("testing", PyVal.vStr "add pytest")])]
    rfl rfl

/-! ## Project analyzer (`CodeAnalyzer`) -/

/-- Character class `[:\s]` of the port patterns. -/
def isColonOrWs (c : Char) : Bool :=
  c == ':' || isWsPy c

/-- Character class `.` (any character but newline). -/
def notNewline (c : Char) : Bool :=
  c != '\n'

/-- One item of a port-scan regular expression (each of the five source
patterns is a sequence of these followed by the final `(\d+)` capture). -/
inductive RItem : Type
  | lit (cs : List Char)
  | one (cl : Char → Bool)
  | opt (c : Char)
  | star (cl : Char → Bool)

/-- Case-insensitive character comparison (`re.IGNORECASE`). -/
def ciEq (a b : Char) : Bool :=
  a.toLower == b.toLower

/-- Case-insensitive literal-prefix test. -/
def ciStarts : List Char → List Char → Bool
  | [], _ => true
  | _ :: _, [] => false
  | a :: p, b :: q => ciEq a b && ciStarts p q

/-- Match the item sequence at the start of `s`, then the final greedy
`(\d+)` capture, returning the captured number.  A greedy `star` tries
the longest class run first and backtracks (the fold tries drops from
largest to smallest), matching Python's backtracking preference, so the
returned capture agrees with `re.search`'s group(1) at this position. -/
def matchSeq : List RItem → List Char → Option Nat
  | [], s =>
    let ds := s.takeWhile Char.isDigit
    if ds.isEmpty then none else some (digitsToNat ds)
  | .lit cs :: rest, s =>
    if ciStarts cs s then matchSeq rest (s.drop cs.length) else none
  | .one cl :: rest, s =>
    match s with
    | [] => none
    | c :: t => if cl c then matchSeq rest t else none
  | .opt c :: rest, s =>
    match s with
    | [] => matchSeq rest []
    | c2 :: t => if ciEq c c2 then (matchSeq rest t).orElse (fun _ => matchSeq rest (c2 :: t))
      else matchSeq rest (c2 :: t)
  | .star cl :: rest, s =>
    let m := (s.takeWhile cl).length
    (List.range (m + 1)).foldl
      (fun acc i => acc.orElse (fun _ => matchSeq rest (s.drop (m - i)))) none

/-- `re.search`: try the pattern at every start position, leftmost
first. -/
def reSearch (items : List RItem) : List Char → Option Nat
  | [] => matchSeq items []
  | c :: t => (matchSeq items (c :: t)).orElse (fun _ => reSearch items t)

/-- The five port patterns of `_detect_port_from_files`, in source
order: `port[:\s]*=?\s*(\d+)`, `localhost:(\d+)`, `0\.0\.0\.0:(\d+)`,
`uvicorn.*--port\s+(\d+)`, `listen[:\s]*(\d+)`, all searched with
`re.IGNORECASE`. -/
def port_patterns : List (List RItem) :=
  [[.lit "port".data, .star isColonOrWs, .opt '=', .star isWsPy],
   [.lit "localhost:".data],
   [.lit "0.0.0.0:".data],
   [.lit "uvicorn".data, .star notNewline, .lit "--port".data, .one isWsPy, .star isWsPy],
   [.lit "listen".data, .star isColonOrWs]]

/-- The inner loop of `_detect_port_from_files` over one file's content:
the first pattern (in order) that matches anywhere wins. -/
def search_port_patterns (content : List Char) : Option Nat :=
  port_patterns.foldl (fun acc p => acc.orElse (fun _ => reSearch p content)) none

/-- `_detect_port_from_files`: files are given in directory iteration
order as `some content` or `none` for an unreadable file (whose read
exception is caught and skipped); the first file with any pattern match
determines the port, else the default. -/
def detect_port_from_files (files : List (Option (List Char))) (dflt : Nat) : Nat :=
  match files with
  | [] => dflt
  | none :: rest => detect_port_from_files rest dflt
  | some content :: rest =>
    match search_port_patterns content with
    | some n => n
    | none => detect_port_from_files rest dflt

/-- The parsed `package.json` content used by `_analyze_frontend`:
`package_data.get('dependencies', {})` and `.get('scripts', {})`. -/
structure PackageData : Type where
  dependencies : PyDict
  scripts : PyDict

/-- The frontend-relevant filesystem state: whether `frontend/` exists,
the state of `frontend/package.json` (`none` absent, `some none` present
but unparseable, `some (some pd)` parsed), whether `frontend/index.html`
exists, and the contents of the `frontend/*.js` files in iteration
order. -/
structure FrontendFS : Type where
  dirExists : Bool
  packageJson : Option (Option PackageData)
  indexHtml : Bool
  jsFiles : List (Option (List Char))

/-- `CodeAnalyzer._analyze_frontend`: an absent directory yields only
the presence flag; otherwise the framework branch (node via
package.json, else vanilla-js via index.html, else nothing) and always a
`port` from the JS-file scan with default 3000.  A parse failure of
package.json only prints a warning — the `elif` is skipped and no
framework fields are added. -/
def analyze_frontend (root : String) (fs : FrontendFS) : PyDict :=
  if !fs.dirExists then [("exists", .vBool false)]
  else
    let a0 : PyDict := [("exists", .vBool true), ("path", .vStr (root ++ "/frontend"))]
    let a1 :=
      match fs.packageJson with
      | some (some pd) =>
        let b := assocSet a0 "framework" (.vStr "node")
        let b := assocSet b "dependencies" (.vDict pd.dependencies)
        let b := assocSet b "scripts" (.vDict pd.scripts)
        let b := assocSet b "test_command" (.vStr "npm test")
        let b := assocSet b "build_command" (.vStr "npm run build")
        let b := assocSet b "lint_command" (.vStr "npm run lint")
        assocSet b "install_command" (.vStr "npm install")
      | some none => a0
      | none =>
        if fs.indexHtml then
          let b := assocSet a0 "framework" (.vStr "vanilla-js")
          let b := assocSet b "dependencies" (.vDict [])
          let b := assocSet b "test_command" (.vStr "echo \"No tests defined for vanilla JS\"")
          let b := assocSet b "build_command" (.vStr "echo \"No build step needed\"")
          let b := assocSet b "lint_command" (.vStr "echo \"No linting configured\"")
          assocSet b "install_command" (.vStr "echo \"No dependencies to install\"")
        else a0
    assocSet a1 "port" (.vInt (detect_port_from_files fs.jsFiles 3000))

/-- The backend-relevant filesystem state: whether `backend/` exists,
the text of `backend/requirements.txt` and `backend/main.py` when
present, and the contents of the `backend/*.py` files in iteration
order. -/
structure BackendFS : Type where
  dirExists : Bool
  requirementsTxt : Option String
  mainPy : Option String
  pyFiles : List (Option (List Char))

/-- `CodeAnalyzer._detect_python_framework`: lower-cased substring test
of the entrypoint source against fastapi, flask, django in that
precedence order. -/
def detect_python_framework (mainPy : Option String) : String :=
  match mainPy with
  | some content =>
    let lc := (lowerStr content).data
    if containsSub "fastapi".data lc then "fastapi"
    else if containsSub "flask".data lc then "flask"
    else if containsSub "django".data lc then "django"
    else "unknown"
  | none => "unknown"

/-- `CodeAnalyzer._analyze_backend`: an absent directory yields only the
presence flag; with a requirements manifest or entrypoint present, the
python fields (language, framework, optional dependency list, commands,
port with default 8000) are added; otherwise only presence and path. -/
def analyze_backend (root : String) (fs : BackendFS) : PyDict :=
  if !fs.dirExists then [("exists", .vBool false)]
  else
    let a0 : PyDict := [("exists", .vBool true), ("path", .vStr (root ++ "/backend"))]
    if fs.requirementsTxt.isSome || fs.mainPy.isSome then
      let b := assocSet a0 "language" (.vStr "python")
      let b := assocSet b "framework" (.vStr (detect_python_framework fs.mainPy))
      let b :=
        match fs.requirementsTxt with
        | some content =>
          let reqs := splitOnChar '\n' (stripChars content.data)
          assocSet b "dependencies"
            (.vList ((reqs.filter (fun l => !(stripChars l).isEmpty)).map
              (fun l => .vStr (String.mk (stripChars l)))))
        | none => b
      let b := assocSet b "test_command" (.vStr "pytest")
      let b := assocSet b "lint_command" (.vStr "flake8")
      let b := assocSet b "install_command" (.vStr "pip install -r requirements.txt")
      assocSet b "port" (.vInt (detect_port_from_files fs.pyFiles 8000))
    else a0

/-- The infrastructure-relevant filesystem state: whether `terraform/`
exists, and the `terraform/*.tf` paths (in iteration order) when it
does. -/
structure InfraFS : Type where
  dirExists : Bool
  tfFiles : List String

/-- `CodeAnalyzer._analyze_infrastructure`: the presence flag and path
are always set; the `terraform_files` list is added ONLY when the
directory exists. -/
def analyze_infrastructure (root : String) (fs : InfraFS) : PyDict :=
  let a0 : PyDict := [("terraform_exists", .vBool fs.dirExists),
                      ("terraform_path", .vStr (root ++ "/terraform"))]
  if fs.dirExists then
    assocSet a0 "terraform_files" (.vList (fs.tfFiles.map .vStr))
  else a0

/-- The container-relevant filesystem state: whether
`docker-compose.yml` exists at the root, and the paths found by the
recursive `rglob('Dockerfile')` scan (in iteration order). -/
structure DockerFS : Type where
  composeExists : Bool
  dockerfiles : List String

/-- `CodeAnalyzer._analyze_docker`: the source initializes
`dockerfiles` to `[]` and appends every rglob hit regardless of the
compose flag, netting to the full scan result. -/
def analyze_docker (fs : DockerFS) : PyDict :=
  [("compose_exists", .vBool fs.composeExists),
   ("dockerfiles", .vList (fs.dockerfiles.map .vStr))]

/-- The VCS-relevant state: whether `.git` exists, and the outcome of
the two subprocess queries when it does — `none`: the first call raised
(nothing added); `some (branch, none)`: the second call raised after the
first succeeded; `some (branch, some url)`: both succeeded.  Strings are
the raw stdout, stripped on assignment as in the source. -/
structure GitFS : Type where
  gitDirExists : Bool
  queries : Option (String × Option String)

/-- `CodeAnalyzer._analyze_git`: the presence flag always; branch and
remote only as far as the try-block got before its (caught, non-fatal)
exception. -/
def analyze_git (fs : GitFS) : PyDict :=
  let a0 : PyDict := [("is_git_repo", .vBool fs.gitDirExists)]
  if fs.gitDirExists then
    match fs.queries with
    | none => a0
    | some (branch, rest) =>
      let b := assocSet a0 "current_branch" (.vStr (pyStrip branch))
      match rest with
      | none => b
      | some url => assocSet b "remote_url" (.vStr (pyStrip url))
  else a0

/-- C5 counterexample: the frontend facet produced for an absent
`frontend/` directory carries only the presence flag — its declared
`port` field (like every other declared field) is absent rather than
present with a type-appropriate empty default; and the docker facet
with the compose flag false carries its `dockerfiles` field holding the
actual (non-empty) scan result, not a type-appropriate empty default.
Both refute the claim. -/
theorem claim_C5_counterexample :
    assocLookup (analyze_frontend "." (⟨false, none, false, []⟩ : FrontendFS)) "exists"
        = some (.vBool false) ∧
      assocLookup (analyze_frontend "." (⟨false, none, false, []⟩ : FrontendFS)) "port" = none ∧
      assocLookup (analyze_docker (⟨false, ["./backend/Dockerfile"]⟩ : DockerFS)) "compose_exists"
        = some (.vBool false) ∧
      assocLookup (analyze_docker (⟨false, ["./backend/Dockerfile"]⟩ : DockerFS)) "dockerfiles"
        = some (.vList [.vStr "./backend/Dockerfile"]) :=
  ⟨rfl, rfl, rfl, rfl⟩

/-- C5 (amended): when a facet's presence flag is false the analyzer
does not fill the remaining declared fields with empty defaults — what
happens is per-facet: the frontend, backend and VCS facets contain only
the presence flag (every other declared field absent); the
infrastructure facet carries its path string but omits the file-list
field; the docker facet alone always carries its `dockerfiles` field,
holding the actual recursive scan result (possibly non-empty even with
the compose flag false) rather than an empty default.  Consumers must
use defaulted lookups for the absent fields. -/
theorem claim_C5_amended :
    (∀ (root : String) (fs : FrontendFS), fs.dirExists = false →
      analyze_frontend root fs = [("exists", .vBool false)]) ∧
    (∀ (root : String) (fs : BackendFS), fs.dirExists = false →
      analyze_backend root fs = [("exists", .vBool false)]) ∧
    (∀ (root : String) (fs : InfraFS), fs.dirExists = false →
      analyze_infrastructure root fs
        = [("terraform_exists", .vBool false), ("terraform_path", .vStr (root ++ "/terraform"))]) ∧
    (∀ fs : DockerFS, fs.composeExists = false →
      analyze_docker fs
        = [("compose_exists", .vBool false), ("dockerfiles", .vList (fs.dockerfiles.map .vStr))]) ∧
    (∀ fs : GitFS, fs.gitDirExists = false →
      analyze_git fs = [("is_git_repo", .vBool false)]) := by
  refine ⟨?_, ?_, ?_, ?_, ?_⟩
  · intro root fs h
    rw [analyze_frontend, h]
    rfl
  · intro root fs h
    rw [analyze_backend, h]
    rfl
  · intro root fs h
    rw [analyze_infrastructure, h]
    rfl
  · intro fs h
    rw [analyze_docker, h]
  · intro fs h
    rw [analyze_git, h]
    rfl

/-- Witness for C5 (amended): the frontend conjunct at a filesystem
without the frontend directory, and the docker conjunct at a tree with
no compose file but one found Dockerfile. -/
theorem claim_C5_amended_witness :
    analyze_frontend "." (⟨false, none, false, []⟩ : FrontendFS) = [("exists", .vBool false)] ∧
      analyze_docker (⟨false, ["./backend/Dockerfile"]⟩ : DockerFS)
        = [("compose_exists", .vBool false),
            ("dockerfiles", .vList [.vStr "./backend/Dockerfile"])] :=
  ⟨claim_C5_amended.1 "." ⟨false, none, false, []⟩ rfl,
    claim_C5_amended.2.2.2.1 ⟨false, ["./backend/Dockerfile"]⟩ rfl⟩
